import Mathlib

/-!
Shallow embedding of `src/stm32/software_glitch.py` (the STM32 RDP glitch
campaign controller) and proofs about the properties claimed of it.

Bytes are modelled as `Nat` (all byte values entering the model come from
environment-supplied buffers and fixed literals; no arithmetic is applied
to them, so no overflow modelling is needed).  Buffers read from or
written to the target are `List Nat`.  A read that can fail at the command
level is an `Option (List Nat)` (`none` = the `st-flash` invocation
failed or the output file is missing).
-/

namespace SoftwareGlitch

/-- The fixed 16-byte baseline pattern written to flash
(`test_data = b"SIMON_SIMON_SIMO"` in the source). -/
def test_data : List Nat :=
  [0x53, 0x49, 0x4D, 0x4F, 0x4E, 0x5F,
   0x53, 0x49, 0x4D, 0x4F, 0x4E, 0x5F,
   0x53, 0x49, 0x4D, 0x4F]

/-- The fixed 16-byte signature the target returns while read protection
holds (`data_expected` in `check_data_protected`). -/
def protected_signature : List Nat :=
  [0x80, 0x00, 0x55, 0x01, 0x03, 0x00, 0x03, 0x01,
   0x00, 0x00, 0x00, 0x00, 0x00, 0x00, 0xFF, 0xFF]

/-- Embedding of `check_data_0`: true iff every byte of the buffer is
zero (`all(b == 0 for b in data)`); inspects the whole buffer. -/
def check_data_0 (data : List Nat) : Bool :=
  data.all (fun b => b == 0)

/-- Embedding of `check_data_write`: compares the first 16 bytes of the
buffer with `test_data` (`data[:16] == test_data`). -/
def check_data_write (data : List Nat) : Bool :=
  data.take 16 == test_data

/-- Embedding of `check_data_protected`: compares the first 16 bytes of
the buffer with the protected signature (`data[:16] == data_expected`). -/
def check_data_protected (data : List Nat) : Bool :=
  data.take 16 == protected_signature

/-- The RDP protection levels named by the spec's `ProtectionLevel`
enum; the source prints these four classifications in
`read_option_bytes`. -/
inductive ProtectionLevel where
  | unprotected
  | level1
  | level2
  | unknown
deriving DecidableEq, Repr

/-- Embedding of the classification chain in `read_option_bytes`
(`if rdp_byte == 0xAA ... elif 0x33 ... elif 0xCC ... else` unknown). -/
def rdp_classify (b : Nat) : ProtectionLevel :=
  if b == 0xAA then .unprotected
  else if b == 0x33 then .level1
  else if b == 0xCC then .level2
  else .unknown

/-- The spec side of the `readLevel` lookup, written from the spec's
words: a fixed lookup 0xAA→Unprotected, 0x33→Level1, 0xCC→Level2, and
every other byte value maps to Unknown.  Used only to compare against
the source-side `rdp_classify`. -/
def spec_level_lookup (b : Nat) : ProtectionLevel :=
  if b = 0xAA then .unprotected
  else if b = 0x33 then .level1
  else if b = 0xCC then .level2
  else .unknown

/-- Embedding of `read_option_bytes`.  `raw` is the outcome of the
`st-flash ... read option_bytes.bin 0x1FF80000 0x10` command: `none`
when the command failed or the file is missing (the function then
returns `None`), otherwise the bytes that were read.  On a successful
read the function returns the RDP byte:
`data[0] if len(data) > 0 else 0`. -/
def read_option_bytes (raw : Option (List Nat)) : Option Nat :=
  match raw with
  | none => none
  | some data => some (data.headD 0)

/-- Result of one `set_rdp_level_*` call: the Python return value and
the option-byte block handed to the write command, if a write was
issued at all. -/
structure RdpCallResult where
  success : Bool
  written : Option (List Nat)
deriving DecidableEq, Repr

/-- Embedding of `set_rdp_level_1`.  `raw` is the option-byte read
outcome, `writeOk` whether the `st-flash` write exits with code 0.
Mirrors the source: read fails → `False`; byte already 0x33 → `True`
with no write; fewer than two bytes → the `new_data[0]`/`new_data[1]`
assignment raises `IndexError`, the handler returns `False` before any
write; otherwise bytes 0 and 1 become 0x33, 0xCC, the rest of the read
block is preserved, and the result is the write's exit status. -/
def set_rdp_level_1 (raw : Option (List Nat)) (writeOk : Bool) : RdpCallResult :=
  match read_option_bytes raw with
  | none => ⟨false, none⟩
  | some currentRdp =>
    if currentRdp == 0x33 then ⟨true, none⟩
    else
      let current_data := raw.getD []
      if current_data.length < 2 then ⟨false, none⟩
      else ⟨writeOk, some ((current_data.set 0 0x33).set 1 0xCC)⟩

/-- Embedding of `set_rdp_level_0`.  Same shape as `set_rdp_level_1`
with target byte 0xAA and complement 0x55, plus the `fast` flag: in
fast mode the function returns `True` immediately after issuing the
write, without looking at the exit status. -/
def set_rdp_level_0 (fast : Bool) (raw : Option (List Nat)) (writeOk : Bool) :
    RdpCallResult :=
  match read_option_bytes raw with
  | none => ⟨false, none⟩
  | some currentRdp =>
    if currentRdp == 0xAA then ⟨true, none⟩
    else
      let current_data := raw.getD []
      if current_data.length < 2 then ⟨false, none⟩
      else ⟨if fast then true else writeOk, some ((current_data.set 0 0xAA).set 1 0x55)⟩

/-- The spec's `Outcome` enum.  The source's three labelled post-race
exits map onto it: `GLITCH WORKED!` → `glitchSucceeded`,
`GLITCH FAILED! All 0x00` → `glitchFailedProtectionHeld`,
`GLITCH PROGRESS! We blasted the sram` → `glitchDestroyedData`. -/
inductive Outcome where
  | glitchSucceeded
  | glitchFailedProtectionHeld
  | glitchDestroyedData
  | deviceUnresponsive
deriving DecidableEq, Repr

/-- Embedding of the post-race classification branch of
`run_whole_glitch` (source lines 382-396):
`if not check_data_0(d): (if check_data_write(d): worked else:
destroyed) else: failed`. -/
def classify_post_race (data : List Nat) : Outcome :=
  if !(check_data_0 data) then
    if check_data_write data then .glitchSucceeded
    else .glitchDestroyedData
  else .glitchFailedProtectionHeld

/-- Observable I/O and probe actions issued by `run_whole_glitch`, in
program order.  `joinThread` is in the vocabulary so that its absence
from every trace is a statable fact; the source never joins the glitch
thread. -/
inductive Action where
  | arm (ok : Bool)
  | checkTools
  | getDeviceInfo
  | readOption (result : Option (List Nat))
  | writeOption (block : List Nat)
  | writeFlash (block : List Nat)
  | resetDevice
  | readFlash (result : Option (List Nat))
  | threadStart
  | firePulse (n : Nat)
  | disarm
  | joinThread
deriving DecidableEq, Repr

/-- The environment of one `run_whole_glitch` attempt: what each
external interaction returns, in the order the source performs them.
`armOk` is whether the probe-arming block in `arm_chipshouter` runs
without raising (a failure is modelled at the first probe command,
before `cs.armed = 1` executes); `pulseOk` is whether `cs.pulse = 1`
inside the glitch thread runs without raising (if it raises, the
thread dies before it reaches `cs.armed = 0`). -/
structure Env where
  toolsOk : Bool
  armOk : Bool
  pulseOk : Bool
  rdp0Read : Option (List Nat)
  rdp0WriteOk : Bool
  flashRead1 : Option (List Nat)
  rdp1Read : Option (List Nat)
  rdp1WriteOk : Bool
  flashRead2 : Option (List Nat)
  raceRdp0Read : Option (List Nat)
  flashRead3 : Option (List Nat)
deriving DecidableEq, Repr

/-- The distinct exits of `run_whole_glitch`.  `crash` models the
uncaught `TypeError` raised when `read_flash` returns `None` and the
`None` is then sliced by a data check. -/
inductive RunExit where
  | toolsFail
  | baselineFail
  | protectFail
  | glitchFailedAllZero
  | glitchWorked
  | glitchDestroyed
  | crash
deriving DecidableEq, Repr

/-- Result of one attempt: which exit was taken, the Python return
value (`none` when the attempt raised), the probe's armed flag once the
attempt and any glitch thread it started have finished, the main
thread's action trace, and the glitch thread's action trace. -/
structure RunResult where
  exit : RunExit
  retval : Option Bool
  armed : Bool
  trace : List Action
  glitchTrace : List Action
deriving DecidableEq, Repr

/-- The write command issued by a `set_rdp_level_*` call, as trace
actions (empty when the call wrote nothing). -/
def writeActs (r : RdpCallResult) : List Action :=
  match r.written with
  | some w => [Action.writeOption w]
  | none => []

/-- Embedding of `run_whole_glitch` (source lines 340-396).  The arm
result is computed but not inspected by the caller, matching line 341;
the `set_rdp_level_*` results at lines 347, 360 and 379 are likewise
dropped.  The glitch thread (`glitch_on`) is recorded on its own trace:
started at line 378, it fires the pulse and then sets `armed = 0`,
unless the pulse command raises, in which case the thread dies with the
probe still armed.  The main thread continues past the thread start
without joining it. -/
def run_whole_glitch (env : Env) : RunResult :=
  let armed := env.armOk
  let tr0 := [Action.arm env.armOk]
  if env.toolsOk = false then
    ⟨.toolsFail, some false, armed, tr0 ++ [.checkTools], []⟩
  else
    let r0 := set_rdp_level_0 false env.rdp0Read env.rdp0WriteOk
    let tr1 := tr0 ++ [.checkTools, .getDeviceInfo, .readOption env.rdp0Read]
      ++ writeActs r0 ++ [.writeFlash test_data, .resetDevice]
    match env.flashRead1 with
    | none => ⟨.crash, none, armed, tr1 ++ [.readFlash none], []⟩
    | some d1 =>
      let tr2 := tr1 ++ [.readFlash (some d1)]
      if check_data_write d1 = false then
        ⟨.baselineFail, some false, armed, tr2, []⟩
      else
        let r1 := set_rdp_level_1 env.rdp1Read env.rdp1WriteOk
        let tr3 := tr2 ++ [.readOption env.rdp1Read] ++ writeActs r1 ++ [.resetDevice]
        match env.flashRead2 with
        | none => ⟨.crash, none, armed, tr3 ++ [.readFlash none], []⟩
        | some d2 =>
          let tr4 := tr3 ++ [.readFlash (some d2)]
          if check_data_protected d2 = false then
            ⟨.protectFail, some false, armed, tr4, []⟩
          else
            let armed := if env.pulseOk then false else armed
            let gtr : List Action :=
              if env.pulseOk then [.firePulse 1, .disarm] else [.firePulse 1]
            let rFast := set_rdp_level_0 true env.raceRdp0Read env.rdp0WriteOk
            let tr5 := tr4 ++ [.threadStart, .readOption env.raceRdp0Read]
              ++ writeActs rFast
            match env.flashRead3 with
            | none => ⟨.crash, none, armed, tr5 ++ [.readFlash none], gtr⟩
            | some d3 =>
              let tr6 := tr5 ++ [.readFlash (some d3)]
              if check_data_0 d3 = false then
                if check_data_write d3 then
                  ⟨.glitchWorked, some true, armed, tr6, gtr⟩
                else
                  ⟨.glitchDestroyed, some false, armed, tr6, gtr⟩
              else
                ⟨.glitchFailedAllZero, some false, armed, tr6, gtr⟩

/-- Embedding of the `run_demo` loop: the attempts performed, in
order.  The loop body never inspects the previous attempt's return
value before starting the next iteration, but an attempt that raises
(the `crash` exit, an uncaught `TypeError` from a failed `read_flash`)
propagates its exception out of `run_demo` and halts the campaign:
the crashing attempt is the last one performed. -/
def campaign (envs : List Env) : List RunResult :=
  match envs with
  | [] => []
  | e :: rest =>
    let r := run_whole_glitch e
    if r.exit = RunExit.crash then [r]
    else r :: campaign rest

/-- The main-thread trace up to (excluding) the start of the glitch
thread: everything the controller did before any race began. -/
def preRaceTrace (env : Env) : List Action :=
  (run_whole_glitch env).trace.takeWhile (fun a => a != Action.threadStart)

/-- The option-byte read outcomes recorded in a trace, in order. -/
def levelObservations (tr : List Action) : List (Option (List Nat)) :=
  tr.filterMap (fun a =>
    match a with
    | .readOption r => some r
    | _ => none)

/-- Derived summary of which exit an attempt takes, as a function of
the only inputs the exit depends on: the tool check and the three flash
read-backs.  Proven equal to `run_whole_glitch`'s exit in
`run_exit_char`; it is a proof device, not a second translation. -/
def attempt_exit (toolsOk : Bool) (f1 f2 f3 : Option (List Nat)) : RunExit :=
  if toolsOk = false then .toolsFail
  else match f1 with
  | none => .crash
  | some d1 =>
    if check_data_write d1 = false then .baselineFail
    else match f2 with
    | none => .crash
    | some d2 =>
      if check_data_protected d2 = false then .protectFail
      else match f3 with
      | none => .crash
      | some d3 =>
        if check_data_0 d3 = false then
          if check_data_write d3 then .glitchWorked else .glitchDestroyed
        else .glitchFailedAllZero

/-- Derived summary of whether an attempt reaches the trigger race
(starts the glitch thread); proven equivalent to `threadStart`
appearing in the attempt's trace in `run_threadStart_iff`. -/
def reaches_race (env : Env) : Bool :=
  env.toolsOk &&
  (match env.flashRead1 with
   | none => false
   | some d1 => check_data_write d1) &&
  (match env.flashRead2 with
   | none => false
   | some d2 => check_data_protected d2)

/-- The Python return value implied by each exit: `crash` has no return
value, `GLITCH WORKED!` returns `True`, every other exit returns
`False`. -/
def retval_of (e : RunExit) : Option Bool :=
  match e with
  | .crash => none
  | .glitchWorked => some true
  | _ => some false

/-- A four-byte option block currently at RDP level 0 (byte 0 = 0xAA,
complement 0x55), used as a concrete test input. -/
def block_unprotected : List Nat := [0xAA, 0x55, 0x78, 0x00]

/-- A four-byte option block currently at RDP level 1 (byte 0 = 0x33,
complement 0xCC), used as a concrete test input. -/
def block_level1 : List Nat := [0x33, 0xCC, 0x78, 0x00]

/-- A nominal attempt environment: tools present, arm and pulse
commands succeed, every read succeeds, the baseline and protection
checks pass, and the post-race read returns all zeroes. -/
def env_nominal : Env :=
  ⟨true, true, true, some block_unprotected, true, some test_data,
   some block_unprotected, true, some protected_signature,
   some block_level1, some (List.replicate 32 0)⟩

/-- An environment in which arming succeeds but the tool check fails,
so the attempt aborts immediately after arming. -/
def env_tools_fail : Env :=
  ⟨false, true, true, none, true, none, none, true, none, none, none⟩

/-- Like `env_nominal` but the post-race flash read returns the
protected signature itself. -/
def env_sig_after_race : Env :=
  ⟨true, true, true, some block_unprotected, true, some test_data,
   some block_unprotected, true, some protected_signature,
   some block_level1, some protected_signature⟩

/-- Like `env_nominal` but arming the probe fails; every later
interaction still succeeds and the post-race read returns the baseline
pattern. -/
def env_armfail : Env :=
  ⟨true, false, true, some block_unprotected, true, some test_data,
   some block_unprotected, true, some protected_signature,
   some block_level1, some test_data⟩

/-- Like `env_nominal` but the option-byte read inside the raced
`set_rdp_level_0(fast=True)` call fails, making the foreground
operation of the race return `False`. -/
def env_race_fg_fail : Env :=
  ⟨true, true, true, some block_unprotected, true, some test_data,
   some block_unprotected, true, some protected_signature,
   none, some (List.replicate 32 0)⟩

lemma threadStart_not_mem_writeActs (r : RdpCallResult) :
    Action.threadStart ∉ writeActs r := by
  unfold writeActs
  cases r.written <;> simp

lemma joinThread_not_mem_writeActs (r : RdpCallResult) :
    Action.joinThread ∉ writeActs r := by
  unfold writeActs
  cases r.written <;> simp

lemma run_exit_char (env : Env) :
    (run_whole_glitch env).exit =
      attempt_exit env.toolsOk env.flashRead1 env.flashRead2 env.flashRead3 := by
  obtain ⟨t, a, p, r0, w0, f1, r1, w1, f2, rr, f3⟩ := env
  simp only [run_whole_glitch, attempt_exit]
  cases t with
  | false => rfl
  | true =>
    simp only [Bool.true_eq_false, if_neg, ite_false]
    cases f1 with
    | none => rfl
    | some d1 =>
      cases hcw : check_data_write d1 with
      | false => simp [hcw]
      | true =>
        simp only [hcw, Bool.true_eq_false, ite_false]
        cases f2 with
        | none => rfl
        | some d2 =>
          cases hcp : check_data_protected d2 with
          | false => simp [hcp]
          | true =>
            simp only [hcp, Bool.true_eq_false, ite_false]
            cases f3 with
            | none => rfl
            | some d3 =>
              cases hz : check_data_0 d3 with
              | false => cases hw : check_data_write d3 <;> simp [hz, hw]
              | true => simp [hz]

lemma run_retval_char (env : Env) :
    (run_whole_glitch env).retval = retval_of (run_whole_glitch env).exit := by
  obtain ⟨t, a, p, r0, w0, f1, r1, w1, f2, rr, f3⟩ := env
  simp only [run_whole_glitch]
  cases t with
  | false => rfl
  | true =>
    simp only [Bool.true_eq_false, if_neg, ite_false]
    cases f1 with
    | none => rfl
    | some d1 =>
      cases hcw : check_data_write d1 with
      | false => simp [hcw, retval_of]
      | true =>
        simp only [hcw, Bool.true_eq_false, ite_false]
        cases f2 with
        | none => rfl
        | some d2 =>
          cases hcp : check_data_protected d2 with
          | false => simp [hcp, retval_of]
          | true =>
            simp only [hcp, Bool.true_eq_false, ite_false]
            cases f3 with
            | none => rfl
            | some d3 =>
              cases hz : check_data_0 d3 with
              | false => cases hw : check_data_write d3 <;> simp [hz, hw, retval_of]
              | true => simp [hz, retval_of]

lemma run_threadStart_iff (env : Env) :
    Action.threadStart ∈ (run_whole_glitch env).trace ↔ reaches_race env = true := by
  obtain ⟨t, a, p, r0, w0, f1, r1, w1, f2, rr, f3⟩ := env
  simp only [run_whole_glitch, reaches_race]
  cases t with
  | false => simp [threadStart_not_mem_writeActs]
  | true =>
    simp only [Bool.true_eq_false, if_neg, ite_false]
    cases f1 with
    | none => simp [threadStart_not_mem_writeActs]
    | some d1 =>
      cases hcw : check_data_write d1 with
      | false => simp [hcw, threadStart_not_mem_writeActs]
      | true =>
        simp only [hcw, Bool.true_eq_false, ite_false]
        cases f2 with
        | none => simp [threadStart_not_mem_writeActs]
        | some d2 =>
          cases hcp : check_data_protected d2 with
          | false => simp [hcp, threadStart_not_mem_writeActs]
          | true =>
            simp only [hcp, Bool.true_eq_false, ite_false]
            cases f3 with
            | none => simp [threadStart_not_mem_writeActs]
            | some d3 =>
              cases hz : check_data_0 d3 with
              | false => cases hw : check_data_write d3 <;>
                  simp [hz, hw, threadStart_not_mem_writeActs]
              | true => simp [hz, threadStart_not_mem_writeActs]

lemma run_no_join (env : Env) :
    Action.joinThread ∉ (run_whole_glitch env).trace := by
  obtain ⟨t, a, p, r0, w0, f1, r1, w1, f2, rr, f3⟩ := env
  simp only [run_whole_glitch]
  cases t with
  | false => simp [joinThread_not_mem_writeActs]
  | true =>
    simp only [Bool.true_eq_false, if_neg, ite_false]
    cases f1 with
    | none => simp [joinThread_not_mem_writeActs]
    | some d1 =>
      cases hcw : check_data_write d1 with
      | false => simp [hcw, joinThread_not_mem_writeActs]
      | true =>
        simp only [hcw, Bool.true_eq_false, ite_false]
        cases f2 with
        | none => simp [joinThread_not_mem_writeActs]
        | some d2 =>
          cases hcp : check_data_protected d2 with
          | false => simp [hcp, joinThread_not_mem_writeActs]
          | true =>
            simp only [hcp, Bool.true_eq_false, ite_false]
            cases f3 with
            | none => simp [joinThread_not_mem_writeActs]
            | some d3 =>
              cases hz : check_data_0 d3 with
              | false => cases hw : check_data_write d3 <;>
                  simp [hz, hw, joinThread_not_mem_writeActs]
              | true => simp [hz, joinThread_not_mem_writeActs]

lemma run_armed_char (env : Env) :
    (run_whole_glitch env).armed =
      if reaches_race env && env.pulseOk then false else env.armOk := by
  obtain ⟨t, a, p, r0, w0, f1, r1, w1, f2, rr, f3⟩ := env
  simp only [run_whole_glitch, reaches_race]
  cases t with
  | false => rfl
  | true =>
    simp only [Bool.true_eq_false, if_neg, ite_false]
    cases f1 with
    | none => simp
    | some d1 =>
      cases hcw : check_data_write d1 with
      | false => simp [hcw]
      | true =>
        simp only [hcw, Bool.true_eq_false, ite_false]
        cases f2 with
        | none => simp
        | some d2 =>
          cases hcp : check_data_protected d2 with
          | false => simp [hcp]
          | true =>
            simp only [hcp, Bool.true_eq_false, ite_false]
            cases f3 with
            | none => cases p <;> simp [hcw, hcp]
            | some d3 =>
              cases hz : check_data_0 d3 with
              | false => cases hw : check_data_write d3 <;> cases p <;>
                  simp [hz, hw, hcw, hcp]
              | true => cases p <;> simp [hz, hcw, hcp]

lemma run_race_trace (env : Env) (h : reaches_race env = true) :
    ∃ pre rest, (run_whole_glitch env).trace =
        pre ++ Action.threadStart :: Action.readOption env.raceRdp0Read :: rest ∧
      Action.threadStart ∉ pre := by
  obtain ⟨t, a, p, r0, w0, f1, r1, w1, f2, rr, f3⟩ := env
  simp only [reaches_race, Bool.and_eq_true] at h
  obtain ⟨⟨ht, h1⟩, h2⟩ := h
  subst ht
  simp only [run_whole_glitch, Bool.true_eq_false, if_neg, ite_false]
  cases f1 with
  | none => simp at h1
  | some d1 =>
    simp only [] at h1
    simp only [h1, Bool.true_eq_false, ite_false]
    cases f2 with
    | none => simp at h2
    | some d2 =>
      simp only [] at h2
      simp only [h2, Bool.true_eq_false, ite_false]
      refine ⟨Action.arm a :: Action.checkTools :: Action.getDeviceInfo ::
        Action.readOption r0 :: (writeActs (set_rdp_level_0 false r0 w0) ++
        Action.writeFlash test_data :: Action.resetDevice ::
        Action.readFlash (some d1) :: Action.readOption r1 ::
        (writeActs (set_rdp_level_1 r1 w1) ++
        [Action.resetDevice, Action.readFlash (some d2)])), ?_⟩
      cases f3 with
      | none =>
        exact ⟨writeActs (set_rdp_level_0 true rr w0) ++ [Action.readFlash none],
          by simp, by simp [threadStart_not_mem_writeActs]⟩
      | some d3 =>
        cases hz : check_data_0 d3 with
        | true =>
          simp only [hz, Bool.true_eq_false, ite_false, ite_true]
          exact ⟨writeActs (set_rdp_level_0 true rr w0) ++ [Action.readFlash (some d3)],
            by simp, by simp [threadStart_not_mem_writeActs]⟩
        | false =>
          simp only [hz, Bool.true_eq_false, ite_false, ite_true]
          cases hw : check_data_write d3 with
          | true =>
            simp only [hw, ite_true]
            exact ⟨writeActs (set_rdp_level_0 true rr w0) ++ [Action.readFlash (some d3)],
              by simp, by simp [threadStart_not_mem_writeActs]⟩
          | false =>
            simp only [hw, Bool.false_eq_true, ite_false]
            exact ⟨writeActs (set_rdp_level_0 true rr w0) ++ [Action.readFlash (some d3)],
              by simp, by simp [threadStart_not_mem_writeActs]⟩

lemma run_armOk_irrelevant (t a b p : Bool) (r0 : Option (List Nat)) (w0 : Bool)
    (f1 r1 : Option (List Nat)) (w1 : Bool) (f2 rr f3 : Option (List Nat)) :
    (run_whole_glitch ⟨t, a, p, r0, w0, f1, r1, w1, f2, rr, f3⟩).trace.tail =
        (run_whole_glitch ⟨t, b, p, r0, w0, f1, r1, w1, f2, rr, f3⟩).trace.tail ∧
      (run_whole_glitch ⟨t, a, p, r0, w0, f1, r1, w1, f2, rr, f3⟩).glitchTrace =
        (run_whole_glitch ⟨t, b, p, r0, w0, f1, r1, w1, f2, rr, f3⟩).glitchTrace := by
  simp only [run_whole_glitch]
  cases t with
  | false => exact ⟨rfl, rfl⟩
  | true =>
    simp only [Bool.true_eq_false, if_neg, ite_false]
    cases f1 with
    | none => exact ⟨rfl, rfl⟩
    | some d1 =>
      cases hcw : check_data_write d1 with
      | false => simp [hcw]
      | true =>
        simp only [hcw, Bool.true_eq_false, ite_false]
        cases f2 with
        | none => exact ⟨rfl, rfl⟩
        | some d2 =>
          cases hcp : check_data_protected d2 with
          | false => simp [hcp]
          | true =>
            simp only [hcp, Bool.true_eq_false, ite_false]
            cases f3 with
            | none => exact ⟨rfl, rfl⟩
            | some d3 =>
              cases hz : check_data_0 d3 with
              | false => cases hw : check_data_write d3 <;> simp [hz, hw]
              | true => simp [hz]

lemma baseline_not_all_zero (d : List Nat) (h : d.take 16 = test_data) :
    check_data_0 d = false := by
  have h53 : (0x53 : Nat) ∈ d := by
    refine List.take_subset 16 d ?_
    rw [h]
    decide
  unfold check_data_0
  rw [List.all_eq_false]
  exact ⟨0x53, h53, by decide⟩

/-- Claim C1 (corrected): the probe is disarmed only on attempts that
reach the trigger race — there the glitch thread sets `armed = 0`
(provided its pulse command does not raise).  Every attempt that never
starts the race, including all abort paths, terminates with the armed
flag exactly as arming left it. -/
theorem disarm_only_on_race (env : Env) :
    (Action.threadStart ∉ (run_whole_glitch env).trace →
      (run_whole_glitch env).armed = env.armOk) ∧
    (Action.threadStart ∈ (run_whole_glitch env).trace → env.pulseOk = true →
      (run_whole_glitch env).armed = false) ∧
    (Action.threadStart ∈ (run_whole_glitch env).trace → env.pulseOk = false →
      (run_whole_glitch env).armed = env.armOk) := by
  refine ⟨?_, ?_, ?_⟩
  · intro hmem
    rw [run_armed_char]
    have hfalse : reaches_race env = false := by
      rcases Bool.eq_false_or_eq_true (reaches_race env) with h | h
      · exact absurd ((run_threadStart_iff env).2 h) hmem
      · exact h
    simp [hfalse]
  · intro hmem hp
    rw [run_armed_char]
    simp [(run_threadStart_iff env).1 hmem, hp]
  · intro hmem hp
    rw [run_armed_char]
    simp [(run_threadStart_iff env).1 hmem, hp]

/-- Claim C1 witness: a concrete no-race attempt in which the armed
flag is untouched after arming. -/
theorem disarm_only_on_race_witness :
    (run_whole_glitch env_tools_fail).armed = env_tools_fail.armOk :=
  (disarm_only_on_race env_tools_fail).1 (by decide)

/-- Claim C1 counterexample: the attempt in which the probe is armed
and the tool check then fails terminates (returning `False`) with the
probe still armed and no disarm action ever issued. -/
theorem armed_leak_counterexample :
    (run_whole_glitch env_tools_fail).retval = some false ∧
    (run_whole_glitch env_tools_fail).armed = true ∧
    Action.disarm ∉
      (run_whole_glitch env_tools_fail).trace ++
        (run_whole_glitch env_tools_fail).glitchTrace := by decide

/-- Claim C2 (corrected): the glitch thread start is immediately
followed in the controller's trace by the foreground fast-mode
`set_rdp_level_0` call's first operation (nothing between the two
starts), but the controller never joins the glitch thread, and the
attempt's exit and return value are invariant to both the foreground
call's option-byte read outcome and the pulse path's success — neither
result is reported. -/
theorem race_concurrent_no_join (env : Env) :
    Action.joinThread ∉ (run_whole_glitch env).trace ∧
    (Action.threadStart ∈ (run_whole_glitch env).trace →
      ∃ pre rest, (run_whole_glitch env).trace =
        pre ++ Action.threadStart :: Action.readOption env.raceRdp0Read :: rest) ∧
    (∀ rr p, (run_whole_glitch { env with raceRdp0Read := rr, pulseOk := p }).exit =
        (run_whole_glitch env).exit ∧
      (run_whole_glitch { env with raceRdp0Read := rr, pulseOk := p }).retval =
        (run_whole_glitch env).retval) := by
  refine ⟨run_no_join env, ?_, ?_⟩
  · intro h
    obtain ⟨pre, rest, heq, -⟩ := run_race_trace env ((run_threadStart_iff env).1 h)
    exact ⟨pre, rest, heq⟩
  · intro rr p
    constructor
    · rw [run_exit_char, run_exit_char]
    · rw [run_retval_char, run_retval_char, run_exit_char, run_exit_char]

/-- Claim C2 witness: the nominal attempt's trace decomposes with the
thread start immediately followed by the foreground call's read. -/
theorem race_concurrent_no_join_witness :
    ∃ pre rest, (run_whole_glitch env_nominal).trace =
      pre ++ Action.threadStart ::
        Action.readOption env_nominal.raceRdp0Read :: rest :=
  (race_concurrent_no_join env_nominal).2.1 (by decide)

/-- Claim C2 counterexample: a race in which the foreground operation
fails produces exactly the same exit and return value as the nominal
success run — the foreground result is dropped — and the race's trace
contains the thread start but never a join. -/
theorem trigger_race_counterexample :
    (set_rdp_level_0 true env_race_fg_fail.raceRdp0Read true).success = false ∧
    (run_whole_glitch env_race_fg_fail).exit = (run_whole_glitch env_nominal).exit ∧
    (run_whole_glitch env_race_fg_fail).retval =
      (run_whole_glitch env_nominal).retval ∧
    Action.joinThread ∉ (run_whole_glitch env_race_fg_fail).trace ∧
    Action.threadStart ∈ (run_whole_glitch env_race_fg_fail).trace := by decide

/-- Claim C3 (corrected): post-race classification checks all-zero
first (`glitchFailedProtectionHeld`), then the baseline pattern on the
first 16 bytes (`glitchSucceeded`), and everything else — including the
protected signature — is `glitchDestroyedData`. -/
theorem classify_corrected (d : List Nat) :
    (check_data_0 d = true → classify_post_race d = Outcome.glitchFailedProtectionHeld) ∧
    (check_data_write d = true → classify_post_race d = Outcome.glitchSucceeded) ∧
    (check_data_0 d = false → check_data_write d = false →
      classify_post_race d = Outcome.glitchDestroyedData) := by
  refine ⟨?_, ?_, ?_⟩
  · intro h
    simp [classify_post_race, h]
  · intro h
    have hz : check_data_0 d = false := by
      refine baseline_not_all_zero d ?_
      simpa [check_data_write] using h
    simp [classify_post_race, hz, h]
  · intro hz hw
    simp [classify_post_race, hz, hw]

/-- Claim C3 witness: the three classification branches at concrete
snapshots. -/
theorem classify_corrected_witness :
    classify_post_race (List.replicate 24 0) = Outcome.glitchFailedProtectionHeld ∧
    classify_post_race test_data = Outcome.glitchSucceeded ∧
    classify_post_race protected_signature = Outcome.glitchDestroyedData := by
  refine ⟨(classify_corrected _).1 (by decide),
    (classify_corrected _).2.1 (by decide),
    (classify_corrected _).2.2 (by decide) (by decide)⟩

/-- Claim C3 counterexample: a post-race snapshot equal to the fixed
protected signature is classified as destroyed data, not as
`GlitchFailedProtectionHeld` as the claim states, both by the extracted
classifier and by the whole-attempt run. -/
theorem classify_counterexample :
    classify_post_race protected_signature = Outcome.glitchDestroyedData ∧
    protected_signature.take 16 = protected_signature ∧
    check_data_protected protected_signature = true ∧
    (run_whole_glitch env_sig_after_race).exit = RunExit.glitchDestroyed := by
  refine ⟨by decide, by decide, by decide, by decide⟩

/-- Claim C4 (corrected): the race is gated by a flash read-back whose
first 16 bytes must equal the protected signature; on mismatch no race
is ever started; and the Level1 write's exit status is ignored — the
attempt's exit is invariant to it.  No option-byte re-read gates the
race. -/
theorem race_gated_by_flash_signature (env : Env) :
    (Action.threadStart ∈ (run_whole_glitch env).trace →
      ∃ d2, env.flashRead2 = some d2 ∧ check_data_protected d2 = true) ∧
    (∀ d2, env.flashRead2 = some d2 → check_data_protected d2 = false →
      Action.threadStart ∉ (run_whole_glitch env).trace) ∧
    (∀ b, (run_whole_glitch { env with rdp1WriteOk := b }).exit =
      (run_whole_glitch env).exit) := by
  refine ⟨?_, ?_, ?_⟩
  · intro h
    have hr := (run_threadStart_iff env).1 h
    simp only [reaches_race, Bool.and_eq_true] at hr
    obtain ⟨⟨-, -⟩, h2⟩ := hr
    cases hf2 : env.flashRead2 with
    | none => rw [hf2] at h2; simp at h2
    | some d2 => rw [hf2] at h2; exact ⟨d2, rfl, h2⟩
  · intro d2 hf2 hcp hmem
    have hr := (run_threadStart_iff env).1 hmem
    simp only [reaches_race, Bool.and_eq_true, hf2] at hr
    rw [hcp] at hr
    simp at hr
  · intro b
    rw [run_exit_char, run_exit_char]

/-- Claim C4 witness: in the nominal attempt the race was gated by a
read-back equal to the protected signature. -/
theorem race_gated_by_flash_signature_witness :
    ∃ d2, env_nominal.flashRead2 = some d2 ∧ check_data_protected d2 = true :=
  (race_gated_by_flash_signature env_nominal).1 (by decide)

/-- Claim C4 counterexample: a run that reaches the race in which no
pre-race option-byte read ever observed 0x33 (the Level1 byte) — the
re-read-via-readLevel verification the claim describes does not gate
the race; the read before the Level1 write observed 0xAA. -/
theorem level1_verification_counterexample :
    Action.threadStart ∈ (run_whole_glitch env_nominal).trace ∧
    ((levelObservations (preRaceTrace env_nominal)).map read_option_bytes).all
      (fun r => r != some 0x33) = true ∧
    read_option_bytes env_nominal.rdp1Read = some 0xAA := by decide

/-- Claim C5 (confirmed): whenever a `set_rdp_level_*` call writes a
block, that block has byte 0 and byte 1 set to the target byte and its
complement (0x33/0xCC for Level1, 0xAA/0x55 for Unprotected) and every
byte at index 2 and above equals the corresponding byte of the
previously read block. -/
theorem requestLevel_compose (current : List Nat) (wok fast : Bool) (w : List Nat) :
    ((set_rdp_level_1 (some current) wok).written = some w →
      w[0]? = some 0x33 ∧ w[1]? = some 0xCC ∧
      ∀ i, 2 ≤ i → w[i]? = current[i]?) ∧
    ((set_rdp_level_0 fast (some current) wok).written = some w →
      w[0]? = some 0xAA ∧ w[1]? = some 0x55 ∧
      ∀ i, 2 ≤ i → w[i]? = current[i]?) := by
  constructor
  · intro h
    unfold set_rdp_level_1 read_option_bytes at h
    simp only [] at h
    split at h
    · simp at h
    · split at h
      · simp at h
      · rename_i hlen
        match current, hlen, h with
        | [], hlen, _ => exact absurd (by simp) hlen
        | [a], hlen, _ => exact absurd (by simp) hlen
        | a :: b :: t, _, h =>
          obtain rfl : (0x33 : Nat) :: 0xCC :: t = w := by simpa using h
          refine ⟨by simp, by simp, ?_⟩
          intro i hi
          match i, hi with
          | (n+2), _ => simp
  · intro h
    unfold set_rdp_level_0 read_option_bytes at h
    simp only [] at h
    split at h
    · simp at h
    · split at h
      · simp at h
      · rename_i hlen
        match current, hlen, h with
        | [], hlen, _ => exact absurd (by simp) hlen
        | [a], hlen, _ => exact absurd (by simp) hlen
        | a :: b :: t, _, h =>
          obtain rfl : (0xAA : Nat) :: 0x55 :: t = w := by simpa using h
          refine ⟨by simp, by simp, ?_⟩
          intro i hi
          match i, hi with
          | (n+2), _ => simp

/-- Claim C5 witness: composing Level1 option bytes from a concrete
unprotected block. -/
theorem requestLevel_compose_witness :
    (set_rdp_level_1 (some block_unprotected) true).written =
      some [0x33, 0xCC, 0x78, 0x00] ∧
    ([0x33, 0xCC, 0x78, 0x00] : List Nat)[0]? = some 0x33 ∧
    ([0x33, 0xCC, 0x78, 0x00] : List Nat)[1]? = some 0xCC ∧
    ([0x33, 0xCC, 0x78, 0x00] : List Nat)[3]? = block_unprotected[3]? := by
  have h := (requestLevel_compose block_unprotected true false
    [0x33, 0xCC, 0x78, 0x00]).1 (by decide)
  exact ⟨by decide, h.1, h.2.1, h.2.2 3 (by decide)⟩

/-- Claim C6 (confirmed): the source's RDP-byte classification equals
the spec's fixed lookup (0xAA→Unprotected, 0x33→Level1, 0xCC→Level2,
anything else→Unknown), and a successful configuration-block read
always yields a byte to classify (byte 0, or 0 when the block is
empty), never an error. -/
theorem readLevel_fixed_lookup :
    (∀ b, rdp_classify b = spec_level_lookup b) ∧
    (∀ data : List Nat, read_option_bytes (some data) = some (data.headD 0)) := by
  constructor
  · intro b
    unfold rdp_classify spec_level_lookup
    by_cases hA : b = 0xAA
    · simp [hA]
    · by_cases h3 : b = 0x33
      · simp [hA, h3]
      · by_cases hC : b = 0xCC
        · simp [hA, h3, hC]
        · simp [hA, h3, hC]
  · intro data
    rfl

/-- Claim C7 (corrected): the arm result is never consulted — an
attempt behaves identically (same exit, same return value, same trace
after the arm action, same glitch-thread actions) whether arming
succeeded or failed.  A failed arm never halts the campaign: flipping
any one attempt's arm outcome changes nothing about how many attempts
the campaign performs, and the loop always proceeds to the next
iteration after an attempt that does not raise — the only thing that
halts the loop is an attempt raising (a failed flash read), which is
independent of arming. -/
theorem arm_result_ignored (env : Env) :
    (∀ b, (run_whole_glitch { env with armOk := b }).exit =
        (run_whole_glitch env).exit ∧
      (run_whole_glitch { env with armOk := b }).retval =
        (run_whole_glitch env).retval ∧
      (run_whole_glitch { env with armOk := b }).trace.tail =
        (run_whole_glitch env).trace.tail ∧
      (run_whole_glitch { env with armOk := b }).glitchTrace =
        (run_whole_glitch env).glitchTrace) ∧
    (∀ (pre post : List Env) (b : Bool),
      (campaign (pre ++ { env with armOk := b } :: post)).length =
        (campaign (pre ++ env :: post)).length) ∧
    ((run_whole_glitch env).exit ≠ RunExit.crash →
      ∀ rest, campaign (env :: rest) = run_whole_glitch env :: campaign rest) := by
  have hexit : ∀ b, (run_whole_glitch { env with armOk := b }).exit =
      (run_whole_glitch env).exit := by
    intro b
    rw [run_exit_char, run_exit_char]
  refine ⟨?_, ?_, ?_⟩
  · intro b
    obtain ⟨t, a, p, r0, w0, f1, r1, w1, f2, rr, f3⟩ := env
    refine ⟨?_, ?_, ?_, ?_⟩
    · rw [run_exit_char, run_exit_char]
    · rw [run_retval_char, run_retval_char, run_exit_char, run_exit_char]
    · exact (run_armOk_irrelevant t b a p r0 w0 f1 r1 w1 f2 rr f3).1
    · exact (run_armOk_irrelevant t b a p r0 w0 f1 r1 w1 f2 rr f3).2
  · intro pre post b
    induction pre with
    | nil =>
      simp only [List.nil_append, campaign, hexit b]
      by_cases hc : (run_whole_glitch env).exit = RunExit.crash
      · simp [hc]
      · simp [hc]
    | cons h pre ih =>
      simp only [List.cons_append, campaign]
      by_cases hc : (run_whole_glitch h).exit = RunExit.crash
      · simp [hc]
      · simp [hc, ih]
  · intro hc rest
    simp only [campaign]
    simp [hc]

/-- Claim C7 witness: after the concrete attempt whose arm failed (and
which did not raise), the campaign proceeds — its result is recorded
and the loop would continue with any remaining iterations. -/
theorem arm_result_ignored_witness :
    campaign [env_armfail] = [run_whole_glitch env_armfail] := by
  have h := (arm_result_ignored env_armfail).2.2 (by decide) []
  rw [h]
  rfl

/-- Claim C7 counterexample: an attempt whose arm fails still performs
the baseline write and even starts the race, returning `True` — it is
not aborted with a `DeviceUnresponsive`-equivalent report. -/
theorem arm_failure_counterexample :
    env_armfail.armOk = false ∧
    (run_whole_glitch env_armfail).retval = some true ∧
    Action.writeFlash test_data ∈ (run_whole_glitch env_armfail).trace ∧
    Action.threadStart ∈ (run_whole_glitch env_armfail).trace := by decide

/-- Claim C8 (corrected): `read_option_bytes` returns no level exactly
when the underlying read command fails; a successful read always yields
byte 0 when present and the value 0 for an empty read — a short read is
not an error. -/
theorem read_option_bytes_errors :
    read_option_bytes none = none ∧
    (∀ data : List Nat, read_option_bytes (some data) = some (data.headD 0)) ∧
    (∀ raw, (read_option_bytes raw).isNone = raw.isNone) := by
  refine ⟨rfl, fun data => rfl, fun raw => ?_⟩
  cases raw <;> rfl

/-- Claim C8 counterexample: a one-byte read — fewer bytes than the
fixed 0x10 block size — is not an error: it yields the level
Unprotected from its single byte. -/
theorem short_read_counterexample :
    ([0xAA] : List Nat).length < 0x10 ∧
    read_option_bytes (some [0xAA]) = some 0xAA ∧
    rdp_classify 0xAA = ProtectionLevel.unprotected := by
  refine ⟨by decide, rfl, by decide⟩

/-- Claim C9 (confirmed): both `set_rdp_level_*` calls are idempotent —
when the byte read back already equals the requested level's byte the
call returns success with no write issued. -/
theorem requestLevel_idempotent (current : List Nat) (wok fast : Bool) :
    (current.headD 0 = 0x33 → set_rdp_level_1 (some current) wok = ⟨true, none⟩) ∧
    (current.headD 0 = 0xAA → set_rdp_level_0 fast (some current) wok = ⟨true, none⟩) := by
  constructor <;> intro h <;>
    simp only [set_rdp_level_1, set_rdp_level_0, read_option_bytes, h] <;> rfl

/-- Claim C9 witness: requesting Level1 when the block already reads
0x33 performs no write. -/
theorem requestLevel_idempotent_witness :
    set_rdp_level_1 (some block_level1) true = ⟨true, none⟩ :=
  (requestLevel_idempotent block_level1 true false).1 (by decide)

/-- Claim C10 (confirmed): the baseline and protected-signature checks
depend only on the first 16 bytes of the buffer — any buffer whose
first 16 bytes equal the baseline pattern passes the baseline check and
classifies post-race as a success regardless of later bytes — while the
all-zero check inspects the full buffer (extending an all-zero prefix
changes its verdict). -/
theorem comparisons_first16 (d e : List Nat) :
    (d.take 16 = test_data → check_data_write d = true) ∧
    (d.take 16 = e.take 16 →
      check_data_write d = check_data_write e ∧
      check_data_protected d = check_data_protected e) ∧
    (d.take 16 = test_data → classify_post_race d = Outcome.glitchSucceeded) ∧
    check_data_0 (List.replicate 16 0) = true ∧
    check_data_0 (List.replicate 16 0 ++ [1]) = false ∧
    (List.replicate 16 0 ++ [1]).take 16 = (List.replicate 16 (0 : Nat)).take 16 := by
  refine ⟨?_, ?_, ?_, by decide, by decide, by decide⟩
  · intro h
    simp [check_data_write, h]
  · intro h
    unfold check_data_write check_data_protected
    rw [h]
    exact ⟨rfl, rfl⟩
  · intro h
    unfold classify_post_race
    rw [baseline_not_all_zero d h]
    simp [check_data_write, h]

/-- Claim C10 witness: a buffer starting with the baseline pattern and
carrying arbitrary extra bytes passes the baseline check and classifies
as a success. -/
theorem comparisons_first16_witness :
    check_data_write (test_data ++ [0xDE, 0xAD]) = true ∧
    classify_post_race (test_data ++ [0xDE, 0xAD]) = Outcome.glitchSucceeded := by
  refine ⟨?_, ?_⟩
  · exact (comparisons_first16 (test_data ++ [0xDE, 0xAD]) []).1 (by decide)
  · exact (comparisons_first16 (test_data ++ [0xDE, 0xAD]) []).2.2.1 (by decide)

end SoftwareGlitch
